import Mathlib

/-!
Shallow embedding of the node lifecycle controller of zap-desktop
(src/unnamed/part_000, class ZapController plus its state-machine factory).
Connect attempts, process-exit timing and supervisor events are external
inputs, so they appear as explicit parameters; everything else is translated
directly from the source.
-/

namespace Zap

/-- Connection types of an onboarding options object (part_000 lines 14-21):
the literal union local | custom | btcpayserver. -/
inductive ConnectionType
  | localConn
  | custom
  | btcpayserver
deriving DecidableEq, Repr, Fintype

/-- Models grpcSslCipherSuites (part_000 lines 23-45): btcpayserver gets the
two RSA suites, every other connection type the four ECDSA suites, joined
with a colon. -/
def grpcSslCipherSuites (connectionType : ConnectionType) : String :=
  String.intercalate ":"
  (match connectionType with
    | ConnectionType.btcpayserver =>
        ["ECDHE-RSA-AES256-GCM-SHA384",
         "ECDHE-RSA-AES128-GCM-SHA256"]
    | _ =>
        ["ECDHE-ECDSA-AES128-GCM-SHA256",
         "ECDHE-ECDSA-AES256-GCM-SHA384",
         "ECDHE-ECDSA-AES128-CBC-SHA256",
         "ECDHE-ECDSA-CHACHA20-POLY1305"])

/-- Models the JavaScript expression a || b for an optional string a: a JS
string is falsy exactly when it is empty or absent. -/
def jsOrElse (o : Option String) (alt : String) : String :=
  match o with
  | some s => if s = "" then alt else s
  | none => alt

/-- Models the write in finishOnboarding (part_000 lines 426-427):
process.env.GRPC_SSL_CIPHER_SUITES =
process.env.GRPC_SSL_CIPHER_SUITES || grpcSslCipherSuites(options.type).
The environment variable is an Option String; an absent or empty prior value
is falsy and gets replaced, any other prior value is kept. -/
def setCipherSuitesEnv (env : Option String) (t : ConnectionType) : Option String :=
  some (jsOrElse env (grpcSslCipherSuites t))

/-! The coordinator state machine (part_000 lines 453-460). The transition
table is translated from the StateMachine.factory call; the javascript
state-machine library itself is not under src/, so its execution semantics
(a permitted trigger completes into the target state, a trigger whose guard
rejects leaves the state unchanged) are modelled from the spec, section 4.5. -/

/-- States of the coordinator: the implicit start state the library calls
none, and the four named target states of the transition table. -/
inductive FsmState
  | initial
  | onboarding
  | running
  | connected
  | terminated
deriving DecidableEq, Repr, Fintype

/-- The four transition triggers of the factory call. -/
inductive Trigger
  | startOnboarding
  | startLnd
  | connectLnd
  | terminate
deriving DecidableEq, Repr, Fintype

/-- Models the from-column of the transition table (part_000 lines 454-459):
startOnboarding and terminate are declared from the wildcard, startLnd and
connectLnd only from onboarding. -/
def transitionAllowed : Trigger → FsmState → Bool
  | Trigger.startOnboarding, _ => true
  | Trigger.startLnd, s => s = FsmState.onboarding
  | Trigger.connectLnd, s => s = FsmState.onboarding
  | Trigger.terminate, _ => true

/-- Models the to-column of the transition table. -/
def targetState : Trigger → FsmState
  | Trigger.startOnboarding => FsmState.onboarding
  | Trigger.startLnd => FsmState.running
  | Trigger.connectLnd => FsmState.connected
  | Trigger.terminate => FsmState.terminated

/-- Modelled from the spec: the transition execution semantics of the
external javascript-state-machine library are not under src/. Per section
4.5 a permitted trigger moves the coordinator into the target state, and a
failure during the connect attempt of connectLnd or startLnd still completes
the transition into the target state; a trigger whose guard rejects leaves
the state unchanged. -/
def fireTransition (t : Trigger) (s : FsmState) : FsmState :=
  if transitionAllowed t s then targetState t else s

/-! Connect errors and the error object built in onBeforeConnectLnd. -/

/-- Error codes tested in the catch of onBeforeConnectLnd (part_000 lines
176-207): the three string codes and the numeric gRPC status codes, of which
12 is UNIMPLEMENTED. -/
inductive ErrCode
  | hostErrorCode
  | certErrorCode
  | macaroonErrorCode
  | grpcStatus (n : Nat)
deriving DecidableEq, Repr

/-- A connect failure as the catch block reads it: a code, a message and an
optional details field. -/
structure GrpcError where
  code : ErrCode
  message : String
  details : Option String := none
deriving DecidableEq, Repr

/-- The partial error object sent with startLndError: fields host, cert,
macaroon, each present only when assigned. -/
structure LndErrors where
  host : Option String := none
  cert : Option String := none
  macaroon : Option String := none
deriving DecidableEq, Repr

/-- Models the error object built in the catch of onBeforeConnectLnd for a
failure whose code is not 12 (part_000 lines 177-202): the first chain
assigns host on LND_GRPC_HOST_ERROR, cert on LND_GRPC_CERT_ERROR or else
macaroon on LND_GRPC_MACAROON_ERROR; then the else of the code-12 test
unconditionally assigns host the generic message built from details or
message. -/
def connectLndErrors (e : GrpcError) : LndErrors :=
  let errors : LndErrors := {}
  let errors :=
    if e.code = ErrCode.hostErrorCode then { errors with host := some e.message } else errors
  let errors :=
    if e.code = ErrCode.certErrorCode then { errors with cert := some e.message }
    else if e.code = ErrCode.macaroonErrorCode then { errors with macaroon := some e.message }
    else errors
  { errors with host := some ("Unable to connect to host: " ++ jsOrElse e.details e.message) }

/-! Outbound messages to the renderer (sendMessage calls) and the two RPC
sessions. -/

/-- The outbound notifications the controller sends with sendMessage. -/
inductive Message
  | startOnboardingMsg
  | walletConnected
  | startLndError (errors : LndErrors)
  | walletUnlockerGrpcActive
  | lightningGrpcActive
  | lndSyncStatus (status : String)
  | currentBlockHeight (height : Nat)
  | lndBlockHeight (height : Nat)
  | lndCfilterHeight (height : Nat)
deriving DecidableEq, Repr

/-- True exactly for a startLndError message. -/
def isStartLndErrorMsg : Message → Bool
  | Message.startLndError _ => true
  | _ => false

/-- Open-flags of the two RPC sessions held by the controller: the
Authenticated (Lightning) session and the Unlocker session. -/
structure Sessions where
  lightningOpen : Bool := false
  unlockerOpen : Bool := false
deriving DecidableEq, Repr

/-- Models ZapController.startWalletUnlocker (part_000 lines 252-271): a new
WalletUnlocker is connected; on success the walletUnlocker channel is
registered and walletUnlockerGrpcActive is sent; on failure the error is
rethrown and nothing is sent. The Lightning session is not touched. The
connect outcome is the external input. -/
def startWalletUnlocker (connect : Option GrpcError) (s : Sessions) :
    Sessions × List Message × Option GrpcError :=
  match connect with
  | none => ({ s with unlockerOpen := true }, [Message.walletUnlockerGrpcActive], none)
  | some e => (s, [], some e)

/-- Models ZapController.startLightningWallet (part_000 lines 276-295): a new
Lightning session is connected; on success it subscribes, registers the lnd
channel and sends lightningGrpcActive; on failure the error is rethrown and
nothing is sent. The Unlocker session is not touched. -/
def startLightningWallet (connect : Option GrpcError) (s : Sessions) :
    Sessions × List Message × Option GrpcError :=
  match connect with
  | none => ({ s with lightningOpen := true }, [Message.lightningGrpcActive], none)
  | some e => (s, [], some e)

/-- Models ZapController.onBeforeConnectLnd (part_000 lines 167-208):
startLightningWallet, then walletConnected on success; on failure, code 12
returns startWalletUnlocker, any other code sends startLndError with the
connectLndErrors object and rethrows. Returns the final sessions, the
messages sent, and the rejection of the returned promise if any. -/
def onBeforeConnectLnd (lightningConnect unlockerConnect : Option GrpcError) (s : Sessions) :
    Sessions × List Message × Option GrpcError :=
  let r := startLightningWallet lightningConnect s
  match r.2.2 with
  | none => (r.1, r.2.1 ++ [Message.walletConnected], none)
  | some e =>
      if e.code = ErrCode.grpcStatus 12 then startWalletUnlocker unlockerConnect r.1
      else (r.1, r.2.1 ++ [Message.startLndError (connectLndErrors e)], some e)

/-! Controller runs: the coordinator state, the session-opening operations
reachable through the controller, and the supervisor event handlers
registered in startNeutrino. -/

/-- The observable controller state: coordinator state, session open-flags
and the outbound messages sent so far. -/
structure CtrlState where
  fsm : FsmState
  sessions : Sessions := {}
  outbound : List Message := []
deriving DecidableEq, Repr

/-- The operations of the controller that open an RPC session: a connectLnd
attempt (the onBeforeConnectLnd hook followed by the transition), the
startLightningWallet IPC command registered in _registerIpcListeners
(part_000 line 439), and the wallet-unlocker-grpc-active supervisor event
handler (part_000 lines 324-327). Neither of the latter two touches the
coordinator state. -/
inductive ControllerOp
  | connectLndAttempt (lightningConnect unlockerConnect : Option GrpcError)
  | startLightningWalletCmd (connect : Option GrpcError)
  | startWalletUnlockerEvt (connect : Option GrpcError)
deriving DecidableEq, Repr

/-- One controller operation applied to the observable state. -/
def stepOp (c : CtrlState) : ControllerOp → CtrlState
  | ControllerOp.connectLndAttempt lc uc =>
      if transitionAllowed Trigger.connectLnd c.fsm then
        let r := onBeforeConnectLnd lc uc c.sessions
        { fsm := targetState Trigger.connectLnd, sessions := r.1,
          outbound := c.outbound ++ r.2.1 }
      else c
  | ControllerOp.startLightningWalletCmd connect =>
      let r := startLightningWallet connect c.sessions
      { c with sessions := r.1, outbound := c.outbound ++ r.2.1 }
  | ControllerOp.startWalletUnlockerEvt connect =>
      let r := startWalletUnlocker connect c.sessions
      { c with sessions := r.1, outbound := c.outbound ++ r.2.1 }

/-- A list of controller operations run from a start state. -/
def runOps (ops : List ControllerOp) (c : CtrlState) : CtrlState :=
  ops.foldl stepOp c

/-- One connectLnd attempt from the onboarding state with empty sessions. -/
def connectLndRun (lightningConnect unlockerConnect : Option GrpcError) : CtrlState :=
  stepOp { fsm := FsmState.onboarding }
    (ControllerOp.connectLndAttempt lightningConnect unlockerConnect)

/-- The supervisor events whose handlers startNeutrino registers (part_000
lines 305-354). -/
inductive NeutrinoEvent
  | errorEvt (message : String)
  | exitEvt (code : Nat) (signal : String)
  | walletUnlockerGrpcActiveEvt
  | chainSyncWaiting
  | chainSyncStarted
  | chainSyncFinished
  | gotCurrentBlockHeight (height : Nat)
  | gotLndBlockHeight (height : Nat)
  | gotLndCfilterHeight (height : Nat)
deriving DecidableEq, Repr

/-- Models the handlers registered in startNeutrino: error shows a dialog and
sends nothing; exit, while the coordinator is running or connected, shows a
dialog, fires terminate (whose callbacks disconnect an open Lightning
session) and sends nothing; wallet-unlocker-grpc-active calls
startWalletUnlocker; the chain-sync events send lndSyncStatus with waiting,
in-progress and complete; the height events send the respective height
message. -/
def stepNeutrinoEvent (unlockerConnect : Option GrpcError) (c : CtrlState) :
    NeutrinoEvent → CtrlState
  | NeutrinoEvent.errorEvt _ => c
  | NeutrinoEvent.exitEvt _ _ =>
      if c.fsm = FsmState.running ∨ c.fsm = FsmState.connected then
        { fsm := fireTransition Trigger.terminate c.fsm,
          sessions := { c.sessions with lightningOpen := false },
          outbound := c.outbound }
      else c
  | NeutrinoEvent.walletUnlockerGrpcActiveEvt =>
      let r := startWalletUnlocker unlockerConnect c.sessions
      { c with sessions := r.1, outbound := c.outbound ++ r.2.1 }
  | NeutrinoEvent.chainSyncWaiting =>
      { c with outbound := c.outbound ++ [Message.lndSyncStatus "waiting"] }
  | NeutrinoEvent.chainSyncStarted =>
      { c with outbound := c.outbound ++ [Message.lndSyncStatus "in-progress"] }
  | NeutrinoEvent.chainSyncFinished =>
      { c with outbound := c.outbound ++ [Message.lndSyncStatus "complete"] }
  | NeutrinoEvent.gotCurrentBlockHeight h =>
      { c with outbound := c.outbound ++ [Message.currentBlockHeight h] }
  | NeutrinoEvent.gotLndBlockHeight h =>
      { c with outbound := c.outbound ++ [Message.lndBlockHeight h] }
  | NeutrinoEvent.gotLndCfilterHeight h =>
      { c with outbound := c.outbound ++ [Message.lndCfilterHeight h] }

/-- A startLnd run: the transition completes into running when
neutrino.start resolves, after which the given supervisor events arrive in
order. -/
def startLndRun (unlockerConnect : Option GrpcError) (events : List NeutrinoEvent) : CtrlState :=
  events.foldl (stepNeutrinoEvent unlockerConnect)
    { fsm := fireTransition Trigger.startLnd FsmState.onboarding }

/-! Supervisor shutdown (ZapController.shutdownNeutrino, part_000 lines
362-398). Time is in milliseconds; the moment the process would emit its
exit signal, if ever, is the external input. -/

/-- The inputs shutdownNeutrino reads: the active profile type, whether a
neutrino child process exists, and when (if ever) that process emits exit. -/
structure ShutdownEnv where
  configType : ConnectionType
  hasProcess : Bool
  exitAt : Option Nat := none
deriving DecidableEq, Repr

/-- What a shutdownNeutrino call does: when its promise resolves, whether the
interrupt kill (SIGINT, the default of neutrino.kill) and the forceful
kill with SIGTERM were sent, and whether the 10-second timer was started
and whether it was cleared. -/
structure ShutdownResult where
  resolveAt : Nat
  sigintSent : Bool
  sigtermSent : Bool
  timerStarted : Bool
  timerCleared : Bool
deriving DecidableEq, Repr

/-- The shutdown timeout, 1000 * 10 milliseconds (part_000 line 382). -/
def shutdownTimeoutMs : Nat := 1000 * 10

/-- Models ZapController.shutdownNeutrino: a non-local profile or a missing
process resolves immediately with no signal and no timer; otherwise the
timer is started and SIGINT is sent, and either the exit signal arrives
before the deadline (the handler clears the timer and resolves then) or the
timer fires at the deadline, removes the exit listener, sends SIGTERM and
resolves. -/
def shutdownNeutrino (env : ShutdownEnv) : ShutdownResult :=
  if env.configType ≠ ConnectionType.localConn ∨ env.hasProcess = false then
    { resolveAt := 0, sigintSent := false, sigtermSent := false,
      timerStarted := false, timerCleared := false }
  else
    match env.exitAt with
    | some t =>
        if t < shutdownTimeoutMs then
          { resolveAt := t, sigintSent := true, sigtermSent := false,
            timerStarted := true, timerCleared := true }
        else
          { resolveAt := shutdownTimeoutMs, sigintSent := true, sigtermSent := true,
            timerStarted := true, timerCleared := false }
    | none =>
        { resolveAt := shutdownTimeoutMs, sigintSent := true, sigtermSent := true,
          timerStarted := true, timerCleared := false }

/-! Onboarding completion (ZapController.finishOnboarding, part_000 lines
403-432) and connection-profile construction. -/

/-- The setting names that can appear in LndConfig settings. -/
inductive SettingKey
  | aliasKey
  | autopilot
  | host
  | cert
  | macaroon
deriving DecidableEq, Repr, Fintype

/-- A setting value: the string fields and the boolean autopilot flag. -/
inductive SettingValue
  | str (s : String)
  | flag (b : Bool)
deriving DecidableEq, Repr

/-- Modelled from the spec: LndConfig.SETTINGS_PROPS lives in lnd/config,
which is not under src/. Per section 3, local requires the alias and the
autopilot flag, custom requires host, cert and macaroon, and the hosted
service type requires host. -/
def settingsProps : ConnectionType → List SettingKey
  | ConnectionType.localConn => [SettingKey.aliasKey, SettingKey.autopilot]
  | ConnectionType.custom => [SettingKey.host, SettingKey.cert, SettingKey.macaroon]
  | ConnectionType.btcpayserver => [SettingKey.host]

/-- Result of constructing a Connection Profile. -/
inductive ConfigResult
  | ok
  | validationError (missing extra : List SettingKey)
deriving DecidableEq, Repr

/-- The required keys of the connection type that are absent from the
supplied keys. -/
def configMissing (t : ConnectionType) (keys : List SettingKey) : List SettingKey :=
  (settingsProps t).filter (fun k => decide (k ∉ keys))

/-- The supplied keys that are not required for the connection type. -/
def configExtra (t : ConnectionType) (keys : List SettingKey) : List SettingKey :=
  keys.filter (fun k => decide (k ∉ settingsProps t))

/-- Modelled from the spec: the LndConfig constructor is in lnd/config, not
under src/. Per section 4.1 it validates the required-key invariant and
fails with a ConfigValidationError naming the missing and extra keys. -/
def mkConnectionProfile (t : ConnectionType) (keys : List SettingKey) : ConfigResult :=
  if (configMissing t keys).isEmpty && (configExtra t keys).isEmpty then ConfigResult.ok
  else ConfigResult.validationError (configMissing t keys) (configExtra t keys)

/-- The onboarding options object handed to finishOnboarding (part_000 lines
14-21): the connection type and the optional fields. -/
structure OnboardingOptions where
  type : ConnectionType
  host : Option String := none
  cert : Option String := none
  macaroon : Option String := none
  aliasName : Option String := none
  autopilot : Option Bool := none
deriving DecidableEq, Repr

/-- The field of the options object named by a setting key. -/
def optionField (o : OnboardingOptions) : SettingKey → Option SettingValue
  | SettingKey.host => o.host.map SettingValue.str
  | SettingKey.cert => o.cert.map SettingValue.str
  | SettingKey.macaroon => o.macaroon.map SettingValue.str
  | SettingKey.aliasKey => o.aliasName.map SettingValue.str
  | SettingKey.autopilot => o.autopilot.map SettingValue.flag

/-- Models pick(options, LndConfig.SETTINGS_PROPS[options.type]) in
finishOnboarding (part_000 line 411): of the listed keys, those present in
the options with their values. -/
def pickSettings (o : OnboardingOptions) : List (SettingKey × SettingValue) :=
  (settingsProps o.type).filterMap (fun k => (optionField o k).map (fun v => (k, v)))

/-- The LndConfig record finishOnboarding constructs (part_000 lines
406-412). -/
structure LndConfigRecord where
  type : ConnectionType
  currency : String
  network : String
  wallet : String
  settings : List (SettingKey × SettingValue)
deriving DecidableEq, Repr

/-- Models the new LndConfig call in finishOnboarding: the type from the
options, the constant currency, network and wallet, and the picked
settings. -/
def finishOnboardingConfig (o : OnboardingOptions) : LndConfigRecord :=
  { type := o.type, currency := "bitcoin", network := "testnet", wallet := "wallet-1",
    settings := pickSettings o }

/-- The activeConnection record persisted to the settings store (part_000
lines 416-422): the four scalar fields of the saved config. -/
structure ActiveConnection where
  type : ConnectionType
  currency : String
  network : String
  wallet : String
deriving DecidableEq, Repr

/-- Models settings.set of activeConnection in finishOnboarding. -/
def activeConnectionRecord (o : OnboardingOptions) : ActiveConnection :=
  { type := (finishOnboardingConfig o).type,
    currency := (finishOnboardingConfig o).currency,
    network := (finishOnboardingConfig o).network,
    wallet := (finishOnboardingConfig o).wallet }

/-- The host-unreachable connect failure with message x of the end-to-end
scenario. -/
def hostUnreachableX : GrpcError := { code := ErrCode.hostErrorCode, message := "x" }

/-- A connect failure with gRPC status 12, UNIMPLEMENTED. -/
def unimplementedErr : GrpcError := { code := ErrCode.grpcStatus 12, message := "unimplemented" }

/-! Helper lemmas. -/

/-- A list with a member is not empty. -/
theorem isEmpty_false_of_mem {α : Type} {a : α} {l : List α} (h : a ∈ l) :
    l.isEmpty = false := by
  cases l with
  | nil => cases h
  | cons b bs => rfl

/-- configMissing is empty exactly when every required key is supplied. -/
theorem configMissing_eq_nil_iff (t : ConnectionType) (keys : List SettingKey) :
    configMissing t keys = [] ↔ ∀ k ∈ settingsProps t, k ∈ keys := by
  simp [configMissing, List.filter_eq_nil_iff]

/-- configExtra is empty exactly when every supplied key is required. -/
theorem configExtra_eq_nil_iff (t : ConnectionType) (keys : List SettingKey) :
    configExtra t keys = [] ↔ ∀ k ∈ keys, k ∈ settingsProps t := by
  simp [configExtra, List.filter_eq_nil_iff]

/-- Construction succeeds exactly when the supplied keys are the required
keys as sets. -/
theorem mkConnectionProfile_eq_ok_iff (t : ConnectionType) (keys : List SettingKey) :
    mkConnectionProfile t keys = ConfigResult.ok ↔
      (∀ k, k ∈ keys ↔ k ∈ settingsProps t) := by
  rw [mkConnectionProfile]
  by_cases h : ((configMissing t keys).isEmpty && (configExtra t keys).isEmpty) = true
  · rw [if_pos h]
    rw [Bool.and_eq_true, List.isEmpty_iff, List.isEmpty_iff] at h
    have hm := (configMissing_eq_nil_iff t keys).mp h.1
    have he := (configExtra_eq_nil_iff t keys).mp h.2
    exact iff_of_true rfl (fun k => ⟨fun hk => he k hk, fun hk => hm k hk⟩)
  · rw [if_neg h]
    constructor
    · intro hbad; cases hbad
    · intro hall
      exfalso
      apply h
      rw [Bool.and_eq_true, List.isEmpty_iff, List.isEmpty_iff]
      exact ⟨(configMissing_eq_nil_iff t keys).mpr (fun k hk => (hall k).mpr hk),
             (configExtra_eq_nil_iff t keys).mpr (fun k hk => (hall k).mp hk)⟩

/-- The cipher string of every connection type is nonempty. -/
theorem grpcSslCipherSuites_ne_empty (t : ConnectionType) : grpcSslCipherSuites t ≠ "" := by
  cases t <;> decide

/-- jsOrElse of a nonempty alternative is nonempty. -/
theorem jsOrElse_ne_empty (o : Option String) (alt : String) (h : alt ≠ "") :
    jsOrElse o alt ≠ "" := by
  cases o with
  | none => exact h
  | some s =>
    by_cases hs : s = ""
    · show (if s = "" then alt else s) ≠ ""
      rw [if_pos hs]; exact h
    · show (if s = "" then alt else s) ≠ ""
      rw [if_neg hs]; exact hs

/-- A nonempty prior value of the environment variable is kept. -/
theorem setCipherSuitesEnv_of_ne_empty (s : String) (t : ConnectionType) (h : s ≠ "") :
    setCipherSuitesEnv (some s) t = some s := by
  simp [setCipherSuitesEnv, jsOrElse, h]

/-! Claims. -/

/-- C1 counterexample: in the connectLnd scenario with a custom profile whose
authenticated connect fails with the host-unreachable error carrying message
x, the outbound messages are not the single startLndError with payload
host = x: the non-12 branch of the catch overwrites the host field with the
generic message. -/
theorem connectLnd_hostError_payload_cex :
    (connectLndRun (some hostUnreachableX) none).outbound ≠
      [Message.startLndError { host := some "x" }] := by decide

/-- C1 (amended): in that scenario the controller sends exactly one outbound
startLndError, its payload is host = "Unable to connect to host: x", and the
coordinator completes the transition into the connected state. -/
theorem connectLnd_hostError_behavior :
    connectLndRun (some hostUnreachableX) none =
      { fsm := FsmState.connected,
        sessions := {},
        outbound :=
          [Message.startLndError { host := some "Unable to connect to host: x" }] } := by
  decide

/-- C2 counterexample: a connectLnd attempt whose authenticated connect fails
with UNIMPLEMENTED (code 12) but whose Unlocker connect also fails leaves
the Unlocker session closed and emits no walletUnlockerGrpcActive at all. -/
theorem unimplemented_fallback_cex :
    ¬ ((connectLndRun (some unimplementedErr)
          (some { code := ErrCode.hostErrorCode, message := "u" })).sessions.unlockerOpen
            = true ∧
       (connectLndRun (some unimplementedErr)
          (some { code := ErrCode.hostErrorCode, message := "u" })).outbound.count
            Message.walletUnlockerGrpcActive = 1) := by decide

/-- C2 (amended): when the authenticated connect fails with code 12 and the
Unlocker connect succeeds, the Unlocker session becomes open and exactly the
one walletUnlockerGrpcActive message is emitted; whatever the Unlocker
connect outcome, no startLndError is sent for a code-12 failure; and when
the Unlocker connect itself fails, no message at all is emitted (so no
walletUnlockerGrpcActive) and the sessions are unchanged. -/
theorem unimplemented_fallback_amended (e : GrpcError) (h : e.code = ErrCode.grpcStatus 12)
    (s : Sessions) :
    (onBeforeConnectLnd (some e) none s).1.unlockerOpen = true ∧
    (onBeforeConnectLnd (some e) none s).2.1 = [Message.walletUnlockerGrpcActive] ∧
    (∀ unlockerConnect,
      (onBeforeConnectLnd (some e) unlockerConnect s).2.1.filter isStartLndErrorMsg = []) ∧
    (∀ err, (onBeforeConnectLnd (some e) (some err) s).2.1 = [] ∧
      (onBeforeConnectLnd (some e) (some err) s).1 = s) := by
  refine ⟨?_, ?_, ?_, ?_⟩
  · simp [onBeforeConnectLnd, startLightningWallet, startWalletUnlocker, h]
  · simp [onBeforeConnectLnd, startLightningWallet, startWalletUnlocker, h]
  · intro unlockerConnect
    cases unlockerConnect <;>
      simp [onBeforeConnectLnd, startLightningWallet, startWalletUnlocker, h,
        isStartLndErrorMsg]
  · intro err
    exact ⟨by simp [onBeforeConnectLnd, startLightningWallet, startWalletUnlocker, h],
           by simp [onBeforeConnectLnd, startLightningWallet, startWalletUnlocker, h]⟩

/-- C2 witness: the amended theorem at the concrete UNIMPLEMENTED error and
empty sessions. -/
theorem unimplemented_fallback_amended_witness :
    (onBeforeConnectLnd (some unimplementedErr) none {}).2.1 =
      [Message.walletUnlockerGrpcActive] :=
  (unimplemented_fallback_amended unimplementedErr rfl {}).2.1

/-- C3: the transition table accepts startLnd and connectLnd exactly from
onboarding, accepts startOnboarding and terminate from every non-terminal
state, and in particular rejects a second startLnd fired from running,
leaving the state unchanged. -/
theorem fsm_transition_guards :
    (∀ s, transitionAllowed Trigger.startLnd s = true ↔ s = FsmState.onboarding) ∧
    (∀ s, transitionAllowed Trigger.connectLnd s = true ↔ s = FsmState.onboarding) ∧
    (∀ s, s ≠ FsmState.terminated →
      transitionAllowed Trigger.startOnboarding s = true ∧
      transitionAllowed Trigger.terminate s = true) ∧
    transitionAllowed Trigger.startLnd FsmState.running = false ∧
    fireTransition Trigger.startLnd FsmState.running = FsmState.running := by decide

/-- C3 witness: the guards at the concrete running state. -/
theorem fsm_transition_guards_witness :
    transitionAllowed Trigger.startLnd FsmState.running = false ∧
    transitionAllowed Trigger.terminate FsmState.running = true :=
  ⟨fsm_transition_guards.2.2.2.1,
   (fsm_transition_guards.2.2.1 FsmState.running (by decide)).2⟩

/-- C4: shutdown always resolves within the 10-second timeout; for a local
profile with a live process, an exit signal at t before the deadline makes
it resolve at t with the timer cleared and no SIGTERM, while no exit signal
before the deadline makes it send SIGTERM and resolve at the deadline. -/
theorem shutdownNeutrino_bounded (env : ShutdownEnv) :
    (shutdownNeutrino env).resolveAt ≤ shutdownTimeoutMs ∧
    (env.configType = ConnectionType.localConn → env.hasProcess = true →
      (∀ t, env.exitAt = some t → t < shutdownTimeoutMs →
        shutdownNeutrino env =
          { resolveAt := t, sigintSent := true, sigtermSent := false,
            timerStarted := true, timerCleared := true }) ∧
      ((∀ t, env.exitAt = some t → shutdownTimeoutMs ≤ t) →
        shutdownNeutrino env =
          { resolveAt := shutdownTimeoutMs, sigintSent := true, sigtermSent := true,
            timerStarted := true, timerCleared := false })) := by
  constructor
  · unfold shutdownNeutrino
    split
    · exact Nat.zero_le _
    · cases hex : env.exitAt with
      | none => exact Nat.le_refl _
      | some t =>
        by_cases ht : t < shutdownTimeoutMs
        · simp [ht]
          exact Nat.le_of_lt ht
        · simp [ht]
  · intro hct hhp
    have hcond : ¬(env.configType ≠ ConnectionType.localConn ∨ env.hasProcess = false) := by
      rw [hct, hhp]; simp
    constructor
    · intro t hex ht
      unfold shutdownNeutrino
      rw [if_neg hcond, hex]
      simp [ht]
    · intro hall
      unfold shutdownNeutrino
      rw [if_neg hcond]
      cases hex : env.exitAt with
      | none => rfl
      | some t => simp [Nat.not_lt.mpr (hall t hex)]

/-- C4 witness: the exit-before-deadline case at t = 3. -/
theorem shutdownNeutrino_bounded_witness :
    shutdownNeutrino
        { configType := ConnectionType.localConn, hasProcess := true, exitAt := some 3 } =
      { resolveAt := 3, sigintSent := true, sigtermSent := false,
        timerStarted := true, timerCleared := true } :=
  ((shutdownNeutrino_bounded
      { configType := ConnectionType.localConn, hasProcess := true, exitAt := some 3 }).2
    rfl rfl).1 3 rfl (by decide)

/-- C5 counterexample: a reachable run in which a connectLnd attempt falls
back to the Unlocker (code 12, Unlocker connect succeeds) and the renderer
then issues the startLightningWallet command leaves both the Authenticated
and the Unlocker session open at once. -/
theorem sessions_both_open_cex :
    (runOps [ControllerOp.connectLndAttempt (some unimplementedErr) none,
             ControllerOp.startLightningWalletCmd none]
        { fsm := FsmState.onboarding }).sessions =
      { lightningOpen := true, unlockerOpen := true } := by decide

/-- C5 (amended): opening one session does not tear the other down:
startLightningWallet leaves the Unlocker open-flag unchanged and
startWalletUnlocker leaves the Authenticated open-flag unchanged, so the two
sessions are not mutually exclusive. -/
theorem sessions_open_frame (connect : Option GrpcError) (s : Sessions) :
    (startLightningWallet connect s).1.unlockerOpen = s.unlockerOpen ∧
    (startWalletUnlocker connect s).1.lightningOpen = s.lightningOpen := by
  cases connect <;> simp [startLightningWallet, startWalletUnlocker]

/-- C6: for every connection type, profile construction succeeds exactly when
the supplied keys match the required key set, and any missing or extra key
makes it fail with a validation error naming that key. -/
theorem profile_construction_exact_keys (t : ConnectionType) (keys : List SettingKey) :
    (mkConnectionProfile t keys = ConfigResult.ok ↔
      (∀ k, k ∈ keys ↔ k ∈ settingsProps t)) ∧
    (∀ k, k ∈ settingsProps t → k ∉ keys →
      mkConnectionProfile t keys =
        ConfigResult.validationError (configMissing t keys) (configExtra t keys) ∧
      k ∈ configMissing t keys) ∧
    (∀ k, k ∈ keys → k ∉ settingsProps t →
      mkConnectionProfile t keys =
        ConfigResult.validationError (configMissing t keys) (configExtra t keys) ∧
      k ∈ configExtra t keys) := by
  refine ⟨mkConnectionProfile_eq_ok_iff t keys, ?_, ?_⟩
  · intro k hreq hkeys
    have hmem : k ∈ configMissing t keys := by
      simp [configMissing, List.mem_filter, hreq, hkeys]
    have hcond : ((configMissing t keys).isEmpty && (configExtra t keys).isEmpty) = false := by
      rw [isEmpty_false_of_mem hmem, Bool.false_and]
    refine ⟨?_, hmem⟩
    rw [mkConnectionProfile, hcond]
    rfl
  · intro k hkeys hreq
    have hmem : k ∈ configExtra t keys := by
      simp [configExtra, List.mem_filter, hreq, hkeys]
    have hcond : ((configMissing t keys).isEmpty && (configExtra t keys).isEmpty) = false := by
      rw [isEmpty_false_of_mem hmem, Bool.and_false]
    refine ⟨?_, hmem⟩
    rw [mkConnectionProfile, hcond]
    rfl

/-- C6 witness: a custom profile with exactly host, cert and macaroon
constructs successfully. -/
theorem profile_construction_exact_keys_witness :
    mkConnectionProfile ConnectionType.custom
      [SettingKey.host, SettingKey.cert, SettingKey.macaroon] = ConfigResult.ok :=
  (profile_construction_exact_keys ConnectionType.custom
      [SettingKey.host, SettingKey.cert, SettingKey.macaroon]).1.mpr (by decide)

/-- C7: the cipher string written to the environment is the RSA pair for
btcpayserver and the four-suite ECDSA list for every other type, joined by
colons; a nonempty externally supplied value is never overwritten, an unset
variable gets the list of the connection type, and a second write never
changes the variable again. -/
theorem cipher_env_write_once :
    grpcSslCipherSuites ConnectionType.btcpayserver =
      "ECDHE-RSA-AES256-GCM-SHA384:ECDHE-RSA-AES128-GCM-SHA256" ∧
    (∀ t, t ≠ ConnectionType.btcpayserver →
      grpcSslCipherSuites t =
        "ECDHE-ECDSA-AES128-GCM-SHA256:ECDHE-ECDSA-AES256-GCM-SHA384:ECDHE-ECDSA-AES128-CBC-SHA256:ECDHE-ECDSA-CHACHA20-POLY1305") ∧
    (∀ s t, s ≠ "" → setCipherSuitesEnv (some s) t = some s) ∧
    (∀ t, setCipherSuitesEnv none t = some (grpcSslCipherSuites t)) ∧
    (∀ env t u, setCipherSuitesEnv (setCipherSuitesEnv env t) u = setCipherSuitesEnv env t) := by
  refine ⟨rfl, ?_, ?_, fun t => rfl, ?_⟩
  · intro t ht
    cases t with
    | btcpayserver => exact absurd rfl ht
    | localConn => rfl
    | custom => rfl
  · intro s t hs
    simp [setCipherSuitesEnv, jsOrElse, hs]
  · intro env t u
    exact setCipherSuitesEnv_of_ne_empty (jsOrElse env (grpcSslCipherSuites t)) u
      (jsOrElse_ne_empty env (grpcSslCipherSuites t) (grpcSslCipherSuites_ne_empty t))

/-- C7 witness: an externally supplied value survives the write. -/
theorem cipher_env_write_once_witness :
    setCipherSuitesEnv (some "externally-set") ConnectionType.custom =
      some "externally-set" :=
  cipher_env_write_once.2.2.1 "externally-set" ConnectionType.custom (by decide)

/-- C8: a local startLnd run in which the supervisor emits sync-waiting,
sync-started and unlocker-ready and the Unlocker connect succeeds sends
exactly lndSyncStatus waiting, lndSyncStatus in-progress and
walletUnlockerGrpcActive, in that order, and ends in the running state with
only the Unlocker session open. -/
theorem startLnd_sync_sequence :
    startLndRun none [NeutrinoEvent.chainSyncWaiting, NeutrinoEvent.chainSyncStarted,
        NeutrinoEvent.walletUnlockerGrpcActiveEvt] =
      { fsm := FsmState.running,
        sessions := { lightningOpen := false, unlockerOpen := true },
        outbound := [Message.lndSyncStatus "waiting", Message.lndSyncStatus "in-progress",
          Message.walletUnlockerGrpcActive] } := by decide

/-- C9: for every onboarding options value, finishOnboarding constructs the
config with the constant currency bitcoin, network testnet and wallet
wallet-1, the type and picked settings are the only parts taken from the
options, and the persisted activeConnection record carries the same
constants. -/
theorem finishOnboarding_constants (o : OnboardingOptions) :
    (finishOnboardingConfig o).currency = "bitcoin" ∧
    (finishOnboardingConfig o).network = "testnet" ∧
    (finishOnboardingConfig o).wallet = "wallet-1" ∧
    (finishOnboardingConfig o).type = o.type ∧
    (finishOnboardingConfig o).settings = pickSettings o ∧
    activeConnectionRecord o =
      { type := o.type, currency := "bitcoin", network := "testnet", wallet := "wallet-1" } :=
  ⟨rfl, rfl, rfl, rfl, rfl, rfl⟩

/-- C10: for a non-local profile or a missing child process, shutdown
resolves immediately with no interrupt signal, no terminate signal and no
timer. -/
theorem shutdownNeutrino_noop_remote (env : ShutdownEnv)
    (h : env.configType ≠ ConnectionType.localConn ∨ env.hasProcess = false) :
    shutdownNeutrino env =
      { resolveAt := 0, sigintSent := false, sigtermSent := false,
        timerStarted := false, timerCleared := false } := by
  unfold shutdownNeutrino
  rw [if_pos h]

/-- C10 witness: shutting down with a custom profile signals nothing. -/
theorem shutdownNeutrino_noop_remote_witness :
    shutdownNeutrino
        { configType := ConnectionType.custom, hasProcess := true, exitAt := some 3 } =
      { resolveAt := 0, sigintSent := false, sigtermSent := false,
        timerStarted := false, timerCleared := false } :=
  shutdownNeutrino_noop_remote
    { configType := ConnectionType.custom, hasProcess := true, exitAt := some 3 }
    (Or.inl (by decide))

end Zap
